import Mathlib

/-!
# Access-request ledger of `securite2ie_back` (`src/index.js`)

A shallow embedding of the five `/api/demande-acces` handlers of `src/index.js`
and of the three tables they query (`users`, `salles`, `demande_acces`).

Modelling conventions:

* every table is a list of rows in insertion order; `SELECT ... WHERE p` is
  `List.filter p`, and `rows[0]` of a `SELECT ... WHERE id = ?` is `List.find?`;
* `UPDATE t SET c = v WHERE p` rewrites column `c` of every row satisfying `p`;
* `INSERT` appends one row whose `id` is the table's auto-increment counter;
* times of day and calendar dates are natural numbers (minutes since midnight,
  day numbers): the handlers only compare them with `<`, `<=`, `>=`, `>`
  and `=`, which on values of one fixed format is a linear order;
* the two clock readings a submission makes (`new Date()` for the past-date
  check, the store's timestamp for `created_at`) are arguments;
* the `catch` branches (storage failure, HTTP 500) are not modelled: the store
  is total.
-/

namespace Securite2ie

/-- A row of `salles`, with the columns the request handlers read. -/
structure Salle where
  id : Nat
  heure_ouverture : Nat
  heure_fermeture : Nat
  deriving DecidableEq, Repr

/-- A row of `demande_acces`. -/
structure Demande where
  id : Nat
  user_id : Nat
  salle_id : Nat
  statut_demande : String
  date : Nat
  heure_debut : Nat
  heure_fin : Nat
  motif : String
  created_at : Nat
  deriving DecidableEq, Repr

/-- The store: the ids of `users`, the rows of `salles`, the rows of
`demande_acces` together with that table's auto-increment counter. -/
structure Base where
  users : List Nat
  salles : List Salle
  demande_acces : List Demande
  nextId : Nat
  deriving DecidableEq, Repr

/-- The JSON body of `POST /api/demande-acces`; `none` is an absent field (or
an empty string for the date and the two times). -/
structure Corps where
  user_id : Option Nat
  salle_id : Option Nat
  date : Option Nat
  heure_debut : Option Nat
  heure_fin : Option Nat
  motif : Option String
  deriving DecidableEq, Repr

/-- The `error` strings the request handlers answer with. -/
inductive Erreur where
  | champsObligatoires
  | dateAnterieure
  | heureFinApresDebut
  | utilisateurNonTrouve
  | salleNonTrouvee
  | horsHoraires (heure_ouverture heure_fermeture : Nat)
  | demandeExistante
  | demandeNonTrouvee
  | plusEnAttente
  | aucuneDemande
  deriving DecidableEq, Repr

/-- An HTTP answer: the status code and the JSON body. -/
inductive Reponse where
  | demande (code : Nat) (d : Option Demande)
  | demandes (code : Nat) (ds : List Demande)
  | erreur (code : Nat) (e : Erreur)
  deriving DecidableEq, Repr

/-- The failure of an answer, if it is one. -/
def Reponse.echec : Reponse → Option (Nat × Erreur)
  | .erreur c e => some (c, e)
  | _ => none

/-- JavaScript truthiness of a numeric id field: present and not `0`. -/
def idPresent : Option Nat → Option Nat
  | some 0 => none
  | o => o

/-- JavaScript truthiness of a string field: present and not `""`. -/
def textePresent : Option String → Option String
  | some s => if s = "" then none else some s
  | none => none

/-- `SELECT * FROM users WHERE id = ?`. -/
def selectUser (b : Base) (id : Nat) : List Nat :=
  b.users.filter (fun u => u == id)

/-- `SELECT * FROM salles WHERE id = ?`. -/
def selectSalle (b : Base) (id : Nat) : List Salle :=
  b.salles.filter (fun s => s.id == id)

/-- `SELECT * FROM demande_acces WHERE id = ?`. -/
def selectDemande (b : Base) (id : Nat) : List Demande :=
  b.demande_acces.filter (fun d => d.id == id)

/-- The time part of the conflict query of `POST /api/demande-acces`
(`src/index.js` line 241) for a stored window `[b0, b1]` and the parameters
`a0 = heure_debut`, `a1 = heure_fin`, bound in the order `a0, a0, a1, a1`:
`(heure_debut <= ? AND heure_fin >= ?) OR (heure_debut <= ? AND heure_fin >= ?)`. -/
def creneauConflit (b0 b1 a0 a1 : Nat) : Bool :=
  (decide (b0 ≤ a0) && decide (b1 ≥ a0)) || (decide (b0 ≤ a1) && decide (b1 ≥ a1))

/-- The whole `WHERE` clause of the conflict query. -/
def conflit (user_id salle_id date heure_debut heure_fin : Nat) (d : Demande) : Bool :=
  d.user_id == user_id && d.salle_id == salle_id && d.date == date &&
  d.statut_demande == "en_attente" &&
  creneauConflit d.heure_debut d.heure_fin heure_debut heure_fin

/-- `INSERT INTO demande_acces (...) VALUES (?, ?, "en_attente", ?, ?, ?, ?)`. -/
def inserer (b : Base) (now user_id salle_id date heure_debut heure_fin : Nat)
    (motif : String) : Base :=
  { b with
    demande_acces := b.demande_acces ++
      [{ id := b.nextId, user_id := user_id, salle_id := salle_id,
         statut_demande := "en_attente", date := date, heure_debut := heure_debut,
         heure_fin := heure_fin, motif := motif, created_at := now }],
    nextId := b.nextId + 1 }

/-- `UPDATE demande_acces SET statut_demande = ? WHERE id = ?`. -/
def majStatut (b : Base) (statut : String) (id : Nat) : Base :=
  { b with
    demande_acces := b.demande_acces.map
      (fun d => if d.id = id then { d with statut_demande := statut } else d) }

/-- `POST /api/demande-acces` (`src/index.js` lines 199-260). `today` is local
midnight of the current day, `now` the timestamp the store gives `created_at`. -/
def soumettre (today now : Nat) (b : Base) (c : Corps) : Base × Reponse :=
  match idPresent c.user_id, idPresent c.salle_id, c.date, c.heure_debut, c.heure_fin,
      textePresent c.motif with
  | some user_id, some salle_id, some date, some heure_debut, some heure_fin, some motif =>
    if date < today then (b, .erreur 400 .dateAnterieure)
    else if heure_fin ≤ heure_debut then (b, .erreur 400 .heureFinApresDebut)
    else if (selectUser b user_id).length = 0 then (b, .erreur 404 .utilisateurNonTrouve)
    else
      match selectSalle b salle_id with
      | [] => (b, .erreur 404 .salleNonTrouvee)
      | salle :: _ =>
        if heure_debut < salle.heure_ouverture ∨ heure_fin > salle.heure_fermeture then
          (b, .erreur 400 (.horsHoraires salle.heure_ouverture salle.heure_fermeture))
        else if (b.demande_acces.filter
            (conflit user_id salle_id date heure_debut heure_fin)).length > 0 then
          (b, .erreur 400 .demandeExistante)
        else
          let b1 := inserer b now user_id salle_id date heure_debut heure_fin motif
          (b1, .demande 201 (selectDemande b1 b.nextId).head?)
  | _, _, _, _, _, _ => (b, .erreur 400 .champsObligatoires)

/-- `PATCH /api/demande-acces/:id/approuver` (`src/index.js` lines 263-285). -/
def approuver (b : Base) (id : Nat) : Base × Reponse :=
  match selectDemande b id with
  | [] => (b, .erreur 404 .demandeNonTrouvee)
  | demande :: _ =>
    if demande.statut_demande ≠ "en_attente" then (b, .erreur 400 .plusEnAttente)
    else
      let b1 := majStatut b "approuvee" id
      (b1, .demande 200 (selectDemande b1 id).head?)

/-- `PATCH /api/demande-acces/:id/rejeter` (`src/index.js` lines 288-310). -/
def rejeter (b : Base) (id : Nat) : Base × Reponse :=
  match selectDemande b id with
  | [] => (b, .erreur 404 .demandeNonTrouvee)
  | demande :: _ =>
    if demande.statut_demande ≠ "en_attente" then (b, .erreur 400 .plusEnAttente)
    else
      let b1 := majStatut b "rejetee" id
      (b1, .demande 200 (selectDemande b1 id).head?)

/-- Insertion of `d` into a list ordered by `created_at` descending, after the
rows that are at least as recent. -/
def insererRecent (d : Demande) : List Demande → List Demande
  | [] => [d]
  | e :: es => if d.created_at > e.created_at then d :: e :: es else e :: insererRecent d es

/-- `ORDER BY created_at DESC`. -/
def trierRecent : List Demande → List Demande
  | [] => []
  | d :: ds => insererRecent d (trierRecent ds)

/-- `GET /api/demande-acces/user/:user_id` (`src/index.js` lines 313-336). -/
def listerParUser (b : Base) (user_id : Nat) : Base × Reponse :=
  if (selectUser b user_id).length = 0 then (b, .erreur 404 .utilisateurNonTrouve)
  else
    let ds := trierRecent (b.demande_acces.filter (fun d => d.user_id == user_id))
    if ds.length = 0 then (b, .erreur 404 .aucuneDemande)
    else (b, .demandes 200 ds)

/-- `GET /api/demande-acces?statut=` (`src/index.js` lines 403-415): the
handler tests the query parameter for truthiness, so an absent parameter and
an empty one both select the `en_attente` rows. -/
def lister (b : Base) (statut : Option String) : Base × Reponse :=
  match textePresent statut with
  | some s => (b, .demandes 200 (b.demande_acces.filter (fun d => d.statut_demande == s)))
  | none => (b, .demandes 200 (b.demande_acces.filter (fun d => d.statut_demande == "en_attente")))

/-- The operations of the ledger. -/
inductive Op where
  | soumettre (today now : Nat) (c : Corps)
  | approuver (id : Nat)
  | rejeter (id : Nat)
  | lister (statut : Option String)
  | listerParUser (user_id : Nat)
  deriving DecidableEq, Repr

/-- One operation on the store. -/
def step (b : Base) : Op → Base × Reponse
  | .soumettre today now c => soumettre today now b c
  | .approuver id => approuver b id
  | .rejeter id => rejeter b id
  | .lister statut => lister b statut
  | .listerParUser user_id => listerParUser b user_id

/-- A sequence of operations, left to right; the answers are dropped. -/
def run (b : Base) : List Op → Base
  | [] => b
  | op :: ops => run (step b op).1 ops

/-- Inclusive overlap of the windows `[a0, a1]` and `[b0, b1]`, as the
glossary of the specification defines it. -/
def chevauche (a0 a1 b0 b1 : Nat) : Prop :=
  a0 ≤ b1 ∧ b0 ≤ a1

instance (a0 a1 b0 b1 : Nat) : Decidable (chevauche a0 a1 b0 b1) := by
  unfold chevauche; infer_instance

/-- Modelled from the spec: the schema (`db/setup.sql`) is not among the sources;
the specification makes `id` a "unique identifier, assigned on creation". A
store is well formed when `id` is a key of `demande_acces` and every id in use
is below the auto-increment counter. -/
def Base.WF (b : Base) : Prop :=
  (b.demande_acces.map (fun d => d.id)).Nodup ∧ ∀ d ∈ b.demande_acces, d.id < b.nextId

/-- A room open 08:00-18:00 and one user, no request yet. -/
def base0 : Base :=
  { users := [1], salles := [{ id := 1, heure_ouverture := 480, heure_fermeture := 1080 }],
    demande_acces := [], nextId := 1 }

/-- A well-formed submission by user 1 for room 1 on day 100. -/
def corps (heure_debut heure_fin : Nat) : Corps :=
  { user_id := some 1, salle_id := some 1, date := some 100,
    heure_debut := some heure_debut, heure_fin := some heure_fin, motif := some "cours" }

/-- A room open 09:00-18:00 and one user, as in the scenarios of the
specification. -/
def baseScenario : Base :=
  { users := [1], salles := [{ id := 1, heure_ouverture := 540, heure_fermeture := 1080 }],
    demande_acces := [], nextId := 1 }

/-- The common shape of the two `PATCH` handlers, which differ in the status
they write only. -/
def decider (statut : String) (b : Base) (id : Nat) : Base × Reponse :=
  match selectDemande b id with
  | [] => (b, .erreur 404 .demandeNonTrouvee)
  | demande :: _ =>
    if demande.statut_demande ≠ "en_attente" then (b, .erreur 400 .plusEnAttente)
    else
      let b1 := majStatut b statut id
      (b1, .demande 200 (selectDemande b1 id).head?)

/-- The store without its decided requests: only the `en_attente` rows. -/
def enAttenteSeules (b : Base) : Base :=
  { b with demande_acces := b.demande_acces.filter (fun d => d.statut_demande == "en_attente") }

/-- No two distinct `en_attente` rows of one user, room and date have
overlapping windows. -/
def sansChevauchement (b : Base) : Prop :=
  ∀ d ∈ b.demande_acces, ∀ e ∈ b.demande_acces, d ≠ e →
    d.statut_demande = "en_attente" → e.statut_demande = "en_attente" →
    d.user_id = e.user_id → d.salle_id = e.salle_id → d.date = e.date →
    ¬ chevauche d.heure_debut d.heure_fin e.heure_debut e.heure_fin

/-! ## The conflict query -/

theorem creneauConflit_chevauche {b0 b1 a0 a1 : Nat} (h : a0 < a1)
    (hc : creneauConflit b0 b1 a0 a1 = true) : chevauche a0 a1 b0 b1 := by
  simp only [creneauConflit, Bool.or_eq_true, Bool.and_eq_true, decide_eq_true_eq] at hc
  unfold chevauche
  omega

theorem conflit_iff (u s dt a0 a1 : Nat) (d : Demande) :
    conflit u s dt a0 a1 d = true ↔
      d.user_id = u ∧ d.salle_id = s ∧ d.date = dt ∧ d.statut_demande = "en_attente" ∧
        creneauConflit d.heure_debut d.heure_fin a0 a1 = true := by
  simp [conflit, and_assoc]

/-- Either a field is missing, and the answer says so whatever the store, or
all six fields are present. -/
theorem soumettre_cases (c : Corps) :
    (∀ (today now : Nat) (b : Base),
      soumettre today now b c = (b, .erreur 400 .champsObligatoires)) ∨
    ∃ u s dt a0 a1 m, idPresent c.user_id = some u ∧ idPresent c.salle_id = some s ∧
      c.date = some dt ∧ c.heure_debut = some a0 ∧ c.heure_fin = some a1 ∧
      textePresent c.motif = some m := by
  cases hu : idPresent c.user_id with
  | none => left; intros; simp [soumettre, hu]
  | some u =>
  cases hs : idPresent c.salle_id with
  | none => left; intros; simp [soumettre, hu, hs]
  | some s =>
  cases hd : c.date with
  | none => left; intros; simp [soumettre, hu, hs, hd]
  | some dt =>
  cases h0 : c.heure_debut with
  | none => left; intros; simp [soumettre, hu, hs, hd, h0]
  | some a0 =>
  cases h1 : c.heure_fin with
  | none => left; intros; simp [soumettre, hu, hs, hd, h0, h1]
  | some a1 =>
  cases hm : textePresent c.motif with
  | none => left; intros; simp [soumettre, hu, hs, hd, h0, h1, hm]
  | some m => right; exact ⟨u, s, dt, a0, a1, m, rfl, rfl, rfl, rfl, rfl, rfl⟩

theorem idPresent_eq_some {o : Option Nat} {u : Nat} :
    idPresent o = some u ↔ o = some u ∧ u ≠ 0 := by
  cases o with
  | none => simp [idPresent]
  | some n =>
    cases n with
    | zero => simp [idPresent]; intro h; exact h.symm
    | succ k => simp [idPresent]; intro h; omega

theorem textePresent_eq_some {o : Option String} {m : String} :
    textePresent o = some m ↔ o = some m ∧ m ≠ "" := by
  cases o with
  | none => simp [textePresent]
  | some t =>
    by_cases h : t = ""
    · subst h; simp [textePresent]; intro h; exact h.symm
    · simp [textePresent, h]; intro h1; subst h1; exact h

/-- The handler after the presence checks, as one chain of tests. -/
theorem soumettre_present {today now : Nat} {b : Base} {c : Corps} {u s dt a0 a1 : Nat}
    {m : String} (hu : idPresent c.user_id = some u) (hs : idPresent c.salle_id = some s)
    (hd : c.date = some dt) (h0 : c.heure_debut = some a0) (h1 : c.heure_fin = some a1)
    (hm : textePresent c.motif = some m) :
    soumettre today now b c =
      if dt < today then (b, .erreur 400 .dateAnterieure)
      else if a1 ≤ a0 then (b, .erreur 400 .heureFinApresDebut)
      else if (selectUser b u).length = 0 then (b, .erreur 404 .utilisateurNonTrouve)
      else
        match selectSalle b s with
        | [] => (b, .erreur 404 .salleNonTrouvee)
        | salle :: _ =>
          if a0 < salle.heure_ouverture ∨ a1 > salle.heure_fermeture then
            (b, .erreur 400 (.horsHoraires salle.heure_ouverture salle.heure_fermeture))
          else if (b.demande_acces.filter (conflit u s dt a0 a1)).length > 0 then
            (b, .erreur 400 .demandeExistante)
          else
            (inserer b now u s dt a0 a1 m,
              .demande 201 (selectDemande (inserer b now u s dt a0 a1 m) b.nextId).head?) := by
  unfold soumettre
  rw [hu, hs, hd, h0, h1, hm]

/-- A conflict answer comes from a stored row the conflict query selects. -/
theorem soumettre_conflit_row {today now : Nat} {b : Base} {c : Corps}
    (h : (soumettre today now b c).2 = .erreur 400 .demandeExistante) :
    ∃ u s dt a0 a1 d, c.user_id = some u ∧ c.salle_id = some s ∧ c.date = some dt ∧
      c.heure_debut = some a0 ∧ c.heure_fin = some a1 ∧ a0 < a1 ∧
      d ∈ b.demande_acces ∧ conflit u s dt a0 a1 d = true := by
  rcases soumettre_cases c with hc | ⟨u, s, dt, a0, a1, m, hu, hs, hd, h0, h1, hm⟩
  · rw [hc] at h; simp at h
  · rw [soumettre_present hu hs hd h0 h1 hm] at h
    refine ⟨u, s, dt, a0, a1, ?_⟩
    by_cases c1 : dt < today
    · simp [c1] at h
    by_cases c2 : a1 ≤ a0
    · simp [c1, c2] at h
    by_cases c3 : (selectUser b u).length = 0
    · simp [c1, c2, c3] at h
    rw [if_neg c1, if_neg c2, if_neg c3] at h
    cases hsal : selectSalle b s with
    | nil => rw [hsal] at h; simp at h
    | cons salle rest =>
      rw [hsal] at h
      by_cases c4 : a0 < salle.heure_ouverture ∨ a1 > salle.heure_fermeture
      · simp [c4] at h
      by_cases c5 : (b.demande_acces.filter (conflit u s dt a0 a1)).length > 0
      · obtain ⟨d, hmem⟩ := List.exists_mem_of_length_pos c5
        rw [List.mem_filter] at hmem
        exact ⟨d, (idPresent_eq_some.1 hu).1, (idPresent_eq_some.1 hs).1, hd, h0, h1,
          by omega, hmem.1, hmem.2⟩
      · simp [c4, c5] at h

/-- C10: the time test of the conflict query (requested start inside the stored
window, or requested end inside it) implies inclusive overlap whenever the
requested window has `a0 < a1`; hence a conflict answer of `soumettre` is always
caused by a stored `en_attente` row of the same user, room and date whose window
overlaps the requested one. -/
theorem conflit_sound :
    (∀ b0 b1 a0 a1 : Nat, a0 < a1 → creneauConflit b0 b1 a0 a1 = true →
      a0 ≤ b1 ∧ b0 ≤ a1) ∧
    (∀ (today now : Nat) (b : Base) (c : Corps),
      (soumettre today now b c).2 = .erreur 400 .demandeExistante →
      ∃ u s dt a0 a1 d, c.user_id = some u ∧ c.salle_id = some s ∧ c.date = some dt ∧
        c.heure_debut = some a0 ∧ c.heure_fin = some a1 ∧
        d ∈ b.demande_acces ∧ d.user_id = u ∧ d.salle_id = s ∧ d.date = dt ∧
        d.statut_demande = "en_attente" ∧
        chevauche a0 a1 d.heure_debut d.heure_fin) := by
  refine ⟨fun b0 b1 a0 a1 h hc => creneauConflit_chevauche h hc, ?_⟩
  intro today now b c h
  obtain ⟨u, s, dt, a0, a1, d, hu, hs, hd, h0, h1, hlt, hmem, hc⟩ := soumettre_conflit_row h
  rw [conflit_iff] at hc
  exact ⟨u, s, dt, a0, a1, d, hu, hs, hd, h0, h1, hmem, hc.1, hc.2.1, hc.2.2.1, hc.2.2.2.1,
    creneauConflit_chevauche hlt hc.2.2.2.2⟩

/-- The soundness of the conflict query at 10:30-11:30 against a stored
10:00-11:00, and at the conflict answer that submission gets. -/
theorem conflit_sound_witness :
    (630 ≤ 660 ∧ 600 ≤ 690) ∧
    ∃ u s dt a0 a1 d, (corps 630 690).user_id = some u ∧ (corps 630 690).salle_id = some s ∧
      (corps 630 690).date = some dt ∧
      (corps 630 690).heure_debut = some a0 ∧ (corps 630 690).heure_fin = some a1 ∧
      d ∈ (soumettre 100 7 base0 (corps 600 660)).1.demande_acces ∧
      d.user_id = u ∧ d.salle_id = s ∧ d.date = dt ∧
      d.statut_demande = "en_attente" ∧
      chevauche a0 a1 d.heure_debut d.heure_fin :=
  ⟨conflit_sound.1 600 660 630 690 (by decide) (by decide),
   conflit_sound.2 100 8 (soumettre 100 7 base0 (corps 600 660)).1 (corps 630 690) (by decide)⟩

/-- C1: with a 10:00-11:00 request of user 1 for room 1 on day 100 pending, the
same user's submission of 09:00-12:00 for that room and day, which strictly
contains the pending window and so overlaps it, passes every check of
`soumettre` and is stored as a second `en_attente` row. -/
theorem soumettre_englobant_accepte :
    (soumettre 100 7 base0 (corps 600 660)).1.demande_acces =
      [⟨1, 1, 1, "en_attente", 100, 600, 660, "cours", 7⟩] ∧
    chevauche 540 720 600 660 ∧ 540 < 600 ∧ 660 < 720 ∧
    creneauConflit 600 660 540 720 = false ∧
    soumettre 100 8 (soumettre 100 7 base0 (corps 600 660)).1 (corps 540 720) =
      ({ base0 with
          demande_acces := [⟨1, 1, 1, "en_attente", 100, 600, 660, "cours", 7⟩,
                            ⟨2, 1, 1, "en_attente", 100, 540, 720, "cours", 8⟩],
          nextId := 3 },
       .demande 201 (some ⟨2, 1, 1, "en_attente", 100, 540, 720, "cours", 8⟩)) := by
  decide

/-- C2: from a store without requests, two submissions (10:00-11:00, then
09:00-12:00, same user, room and day) leave two distinct `en_attente` rows
whose windows overlap. -/
theorem run_chevauchement :
    base0.demande_acces = [] ∧
    ¬ sansChevauchement
      (run base0 [.soumettre 100 7 (corps 600 660), .soumettre 100 8 (corps 540 720)]) := by
  refine ⟨rfl, fun h => ?_⟩
  have hrows : (run base0 [.soumettre 100 7 (corps 600 660),
      .soumettre 100 8 (corps 540 720)]).demande_acces =
      [⟨1, 1, 1, "en_attente", 100, 600, 660, "cours", 7⟩,
       ⟨2, 1, 1, "en_attente", 100, 540, 720, "cours", 8⟩] := by decide
  have h1 := h ⟨1, 1, 1, "en_attente", 100, 600, 660, "cours", 7⟩ (by rw [hrows]; simp)
    ⟨2, 1, 1, "en_attente", 100, 540, 720, "cours", 8⟩ (by rw [hrows]; simp)
    (by decide) rfl rfl rfl rfl rfl
  exact h1 (by decide)

theorem filter_conflit_enAttente (b : Base) (u s dt a0 a1 : Nat) :
    (enAttenteSeules b).demande_acces.filter (conflit u s dt a0 a1) =
      b.demande_acces.filter (conflit u s dt a0 a1) := by
  simp only [enAttenteSeules, List.filter_filter]
  apply List.filter_congr
  intro d _
  by_cases hc : conflit u s dt a0 a1 d = true
  · have := (conflit_iff u s dt a0 a1 d).1 hc
    simp [hc, this.2.2.2.1]
  · simp [hc]

/-- C9: the answer of `soumettre` fails in the same way, or succeeds, on a store
and on that store without its approved and rejected rows; and in the scenario
of the specification (room open 09:00-18:00, 10:00-11:00 submitted and then
approved) a submission of 10:30-11:30 by the same user for the same room and
day succeeds and stores an `en_attente` row overlapping the approved one. -/
theorem soumettre_ignore_decidees :
    (∀ (today now : Nat) (b : Base) (c : Corps),
      (soumettre today now b c).2.echec =
        (soumettre today now (enAttenteSeules b) c).2.echec) ∧
    (approuver (soumettre 100 7 baseScenario (corps 600 660)).1 1).1.demande_acces =
      [⟨1, 1, 1, "approuvee", 100, 600, 660, "cours", 7⟩] ∧
    soumettre 100 9 (approuver (soumettre 100 7 baseScenario (corps 600 660)).1 1).1
        (corps 630 690) =
      ({ baseScenario with
          demande_acces := [⟨1, 1, 1, "approuvee", 100, 600, 660, "cours", 7⟩,
                            ⟨2, 1, 1, "en_attente", 100, 630, 690, "cours", 9⟩],
          nextId := 3 },
       .demande 201 (some ⟨2, 1, 1, "en_attente", 100, 630, 690, "cours", 9⟩)) ∧
    chevauche 630 690 600 660 := by
  refine ⟨?_, by decide, by decide, by decide⟩
  intro today now b c
  rcases soumettre_cases c with hc | ⟨u, s, dt, a0, a1, m, hu, hs, hd, h0, h1, hm⟩
  · rw [hc, hc]
  · rw [soumettre_present hu hs hd h0 h1 hm, soumettre_present hu hs hd h0 h1 hm]
    have e1 : selectUser (enAttenteSeules b) u = selectUser b u := rfl
    have e2 : selectSalle (enAttenteSeules b) s = selectSalle b s := rfl
    rw [e1, e2, filter_conflit_enAttente]
    by_cases c1 : dt < today
    · simp [c1, Reponse.echec]
    by_cases c2 : a1 ≤ a0
    · simp [c1, c2, Reponse.echec]
    by_cases c3 : (selectUser b u).length = 0
    · simp [c1, c2, c3, Reponse.echec]
    rw [if_neg c1, if_neg c2, if_neg c3, if_neg c1, if_neg c2, if_neg c3]
    cases hsal : selectSalle b s with
    | nil => simp [Reponse.echec]
    | cons salle rest =>
      by_cases c4 : a0 < salle.heure_ouverture ∨ a1 > salle.heure_fermeture
      · simp [c4, Reponse.echec]
      by_cases c5 : (b.demande_acces.filter (conflit u s dt a0 a1)).length > 0
      · simp [c4, c5, Reponse.echec]
      · simp [c4, c5, Reponse.echec]

/-! ## Keys and well-formedness -/

theorem approuver_eq_decider (b : Base) (id : Nat) :
    approuver b id = decider "approuvee" b id := rfl

theorem rejeter_eq_decider (b : Base) (id : Nat) :
    rejeter b id = decider "rejetee" b id := rfl

theorem filter_id_of_nodup (l : List Demande) (hl : (l.map (fun d => d.id)).Nodup)
    (d : Demande) (hd : d ∈ l) : l.filter (fun e => e.id == d.id) = [d] := by
  induction l with
  | nil => simp at hd
  | cons x xs ih =>
    simp only [List.map_cons, List.nodup_cons, List.mem_map, not_exists, not_and] at hl
    rcases List.mem_cons.1 hd with rfl | hmem
    · have : xs.filter (fun e => e.id == d.id) = [] := by
        rw [List.filter_eq_nil_iff]
        intro e he
        have := hl.1 e he
        simpa using this
      simp [List.filter_cons, this]
    · have hne : x.id ≠ d.id := fun h => hl.1 d hmem h.symm
      simp [List.filter_cons, hne, ih hl.2 hmem]

theorem eq_of_id_eq {b : Base} (hb : b.WF) {d e : Demande} (hd : d ∈ b.demande_acces)
    (he : e ∈ b.demande_acces) (h : e.id = d.id) : e = d := by
  have h1 := filter_id_of_nodup b.demande_acces hb.1 d hd
  have h2 : e ∈ b.demande_acces.filter (fun x => x.id == d.id) := by
    rw [List.mem_filter]; exact ⟨he, by simpa using h⟩
  rw [h1] at h2
  simpa using h2

theorem selectDemande_of_mem {b : Base} (hb : b.WF) {d : Demande}
    (hd : d ∈ b.demande_acces) : selectDemande b d.id = [d] :=
  filter_id_of_nodup b.demande_acces hb.1 d hd

theorem selectDemande_nil_iff (b : Base) (id : Nat) :
    selectDemande b id = [] ↔ ∀ d ∈ b.demande_acces, d.id ≠ id := by
  simp [selectDemande, List.filter_eq_nil_iff]

theorem mem_of_selectDemande {b : Base} {id : Nat} {d : Demande} {r : List Demande}
    (h : selectDemande b id = d :: r) : d ∈ b.demande_acces ∧ d.id = id := by
  have : d ∈ selectDemande b id := by rw [h]; simp
  simpa [selectDemande, List.mem_filter] using this

theorem WF_of_vide {b : Base} (h : b.demande_acces = []) : b.WF := by
  simp [Base.WF, h]

theorem majStatut_ids (b : Base) (st : String) (id : Nat) :
    (majStatut b st id).demande_acces.map (fun d => d.id) =
      b.demande_acces.map (fun d => d.id) := by
  simp only [majStatut, List.map_map]
  apply List.map_congr_left
  intro d _
  simp only [Function.comp]
  split <;> rfl

theorem majStatut_WF {b : Base} (hb : b.WF) (st : String) (id : Nat) :
    (majStatut b st id).WF := by
  refine ⟨by rw [majStatut_ids]; exact hb.1, ?_⟩
  intro d hd
  simp only [majStatut, List.mem_map] at hd
  obtain ⟨e, he, rfl⟩ := hd
  have := hb.2 e he
  split <;> simpa [majStatut] using this

theorem inserer_WF {b : Base} (hb : b.WF) (now u s dt a0 a1 : Nat) (m : String) :
    (inserer b now u s dt a0 a1 m).WF := by
  constructor
  · simp only [inserer, List.map_append, List.map_cons, List.map_nil]
    rw [List.nodup_append]
    refine ⟨hb.1, by simp, ?_⟩
    intro x hx hx2
    simp only [List.mem_map] at hx
    obtain ⟨e, he, rfl⟩ := hx
    have := hb.2 e he
    simp at hx2
    omega
  · intro d hd
    simp only [inserer, List.mem_append, List.mem_singleton] at hd
    rcases hd with hd | rfl
    · have := hb.2 d hd
      simp only [inserer]; omega
    · simp [inserer]

/-! ## Submission -/

/-- Either the store is unchanged and the answer is a failure, or every check
passed and one `en_attente` row was appended. -/
theorem soumettre_issue (today now : Nat) (b : Base) (c : Corps) :
    ((soumettre today now b c).1 = b ∧ (soumettre today now b c).2.echec ≠ none) ∨
    ∃ u s dt a0 a1 m salle rest,
      idPresent c.user_id = some u ∧ idPresent c.salle_id = some s ∧
      c.date = some dt ∧ c.heure_debut = some a0 ∧ c.heure_fin = some a1 ∧
      textePresent c.motif = some m ∧
      ¬ dt < today ∧ a0 < a1 ∧ (selectUser b u).length ≠ 0 ∧
      selectSalle b s = salle :: rest ∧
      salle.heure_ouverture ≤ a0 ∧ a1 ≤ salle.heure_fermeture ∧
      (b.demande_acces.filter (conflit u s dt a0 a1)).length = 0 ∧
      soumettre today now b c =
        (inserer b now u s dt a0 a1 m,
          .demande 201 (selectDemande (inserer b now u s dt a0 a1 m) b.nextId).head?) := by
  rcases soumettre_cases c with hc | ⟨u, s, dt, a0, a1, m, hu, hs, hd, h0, h1, hm⟩
  · left; rw [hc]; simp [Reponse.echec]
  · rw [soumettre_present hu hs hd h0 h1 hm]
    by_cases c1 : dt < today
    · left; simp [c1, Reponse.echec]
    by_cases c2 : a1 ≤ a0
    · left; simp [c1, c2, Reponse.echec]
    by_cases c3 : (selectUser b u).length = 0
    · left; simp [c1, c2, c3, Reponse.echec]
    rw [if_neg c1, if_neg c2, if_neg c3]
    cases hsal : selectSalle b s with
    | nil => left; simp [Reponse.echec]
    | cons salle rest =>
      by_cases c4 : a0 < salle.heure_ouverture ∨ a1 > salle.heure_fermeture
      · left; simp [c4, Reponse.echec]
      by_cases c5 : (b.demande_acces.filter (conflit u s dt a0 a1)).length > 0
      · left; simp [c4, c5, Reponse.echec]
      · right
        refine ⟨u, s, dt, a0, a1, m, salle, rest, hu, hs, hd, h0, h1, hm, c1, by omega, c3,
          hsal, by omega, by omega, by omega, ?_⟩
        simp only [if_neg c4, if_neg c5]

theorem selectDemande_inserer {b : Base} (hb : b.WF) (now u s dt a0 a1 : Nat) (m : String) :
    selectDemande (inserer b now u s dt a0 a1 m) b.nextId =
      [⟨b.nextId, u, s, "en_attente", dt, a0, a1, m, now⟩] := by
  have h : b.demande_acces.filter (fun d => d.id == b.nextId) = [] := by
    rw [List.filter_eq_nil_iff]
    intro d hd
    have := hb.2 d hd
    simp; omega
  simp [selectDemande, inserer, List.filter_append, h]

theorem soumettre_WF {today now : Nat} {b : Base} (hb : b.WF) (c : Corps) :
    (soumettre today now b c).1.WF := by
  rcases soumettre_issue today now b c with h | ⟨u, s, dt, a0, a1, m, _, _, _, _, _, _, _, _,
    _, _, _, _, _, _, _, h⟩
  · rw [h.1]; exact hb
  · rw [h]; exact inserer_WF hb now u s dt a0 a1 m

/-! ## The two decisions -/

theorem decider_nil {st : String} {b : Base} {id : Nat} (h : selectDemande b id = []) :
    decider st b id = (b, .erreur 404 .demandeNonTrouvee) := by
  simp [decider, h]

theorem decider_decidee {st : String} {b : Base} {id : Nat} {d : Demande} {r : List Demande}
    (h : selectDemande b id = d :: r) (hp : d.statut_demande ≠ "en_attente") :
    decider st b id = (b, .erreur 400 .plusEnAttente) := by
  simp [decider, h, hp]

theorem selectDemande_majStatut (b : Base) (st : String) (id : Nat) :
    selectDemande (majStatut b st id) id =
      (selectDemande b id).map (fun d => { d with statut_demande := st }) := by
  simp only [selectDemande, majStatut]
  induction b.demande_acces with
  | nil => rfl
  | cons x xs ih =>
    by_cases hx : x.id = id
    · simp [List.filter_cons, hx, ih]
    · simp [List.filter_cons, hx, ih]

theorem decider_enAttente {st : String} {b : Base} {id : Nat} {d : Demande} {r : List Demande}
    (h : selectDemande b id = d :: r) (hp : d.statut_demande = "en_attente") :
    decider st b id =
      (majStatut b st id, .demande 200 (some { d with statut_demande := st })) := by
  simp [decider, h, hp, selectDemande_majStatut]

theorem decider_WF {st : String} {b : Base} (hb : b.WF) (id : Nat) :
    (decider st b id).1.WF := by
  cases h : selectDemande b id with
  | nil => rw [decider_nil h]; exact hb
  | cons d r =>
    by_cases hp : d.statut_demande = "en_attente"
    · rw [decider_enAttente h hp]; exact majStatut_WF hb st id
    · rw [decider_decidee h hp]; exact hb

theorem approuver_WF {b : Base} (hb : b.WF) (id : Nat) : (approuver b id).1.WF :=
  decider_WF hb id

theorem rejeter_WF {b : Base} (hb : b.WF) (id : Nat) : (rejeter b id).1.WF :=
  decider_WF hb id

theorem majStatut_getElem? (b : Base) (st : String) (id i : Nat) :
    (majStatut b st id).demande_acces[i]? =
      (b.demande_acces[i]?).map
        (fun d => if d.id = id then { d with statut_demande := st } else d) := by
  simp [majStatut]

/-- Either the store is unchanged and the answer is a failure, or the one row
with the given id was `en_attente` and now carries the new status. -/
theorem decider_cases (st : String) (b : Base) (id : Nat) :
    ((decider st b id).1 = b ∧ (decider st b id).2.echec ≠ none) ∨
    ∃ d, d ∈ b.demande_acces ∧ d.id = id ∧ d.statut_demande = "en_attente" ∧
      decider st b id =
        (majStatut b st id, .demande 200 (some { d with statut_demande := st })) := by
  cases h : selectDemande b id with
  | nil => left; rw [decider_nil h]; simp [Reponse.echec]
  | cons d r =>
    by_cases hp : d.statut_demande = "en_attente"
    · right
      exact ⟨d, (mem_of_selectDemande h).1, (mem_of_selectDemande h).2, hp,
        decider_enAttente h hp⟩
    · left; rw [decider_decidee h hp]; simp [Reponse.echec]

theorem decider_issue (st : String) {b : Base} (hb : b.WF) (id : Nat) :
    ((decider st b id).2.echec = none ↔
      ∃ d ∈ b.demande_acces, d.id = id ∧ d.statut_demande = "en_attente") ∧
    ((∀ d ∈ b.demande_acces, d.id ≠ id) →
      decider st b id = (b, .erreur 404 .demandeNonTrouvee)) ∧
    (∀ d ∈ b.demande_acces, d.id = id → d.statut_demande ≠ "en_attente" →
      decider st b id = (b, .erreur 400 .plusEnAttente)) := by
  refine ⟨⟨fun h => ?_, fun h => ?_⟩, fun h => ?_, fun d hd hid hp => ?_⟩
  · rcases decider_cases st b id with h1 | ⟨d, hd, hid, hp, _⟩
    · exact absurd h h1.2
    · exact ⟨d, hd, hid, hp⟩
  · obtain ⟨d, hd, hid, hp⟩ := h
    have hsel := selectDemande_of_mem hb hd
    rw [hid] at hsel
    rw [decider_enAttente hsel hp]; rfl
  · exact decider_nil ((selectDemande_nil_iff b id).2 h)
  · have hsel := selectDemande_of_mem hb hd
    rw [hid] at hsel
    exact decider_decidee hsel hp

/-- Once a decision on `id` has succeeded, every further decision on `id`
answers that the request is no longer pending and changes nothing. -/
theorem decider_deux_fois (st st2 : String) (hst : st ≠ "en_attente") {b : Base} (hb : b.WF)
    (id : Nat) (h : (decider st b id).2.echec = none) :
    decider st2 (decider st b id).1 id = ((decider st b id).1, .erreur 400 .plusEnAttente) := by
  rcases decider_cases st b id with h1 | ⟨d, hd, hid, _, heq⟩
  · exact absurd h h1.2
  · rw [heq]
    have hsel := selectDemande_of_mem hb hd
    rw [hid] at hsel
    have h2 : selectDemande (majStatut b st id) id = [{ d with statut_demande := st }] := by
      rw [selectDemande_majStatut, hsel]; rfl
    exact decider_decidee h2 hst

/-- C4: on a well-formed store, `approuver` (and likewise `rejeter`) succeeds
exactly when a request with the given id exists and is `en_attente`; it answers
404 "demande non trouvée" when no request has that id and 400 "plus en attente"
when the request has another status, leaving the store unchanged in both cases.
Hence after a successful `approuver` or `rejeter` of an id, a further
`approuver` or `rejeter` of that id answers 400 and changes nothing. -/
theorem approuver_rejeter_issue (b : Base) (hb : b.WF) (id : Nat) :
    ((approuver b id).2.echec = none ↔
      ∃ d ∈ b.demande_acces, d.id = id ∧ d.statut_demande = "en_attente") ∧
    ((∀ d ∈ b.demande_acces, d.id ≠ id) →
      approuver b id = (b, .erreur 404 .demandeNonTrouvee)) ∧
    (∀ d ∈ b.demande_acces, d.id = id → d.statut_demande ≠ "en_attente" →
      approuver b id = (b, .erreur 400 .plusEnAttente)) ∧
    ((rejeter b id).2.echec = none ↔
      ∃ d ∈ b.demande_acces, d.id = id ∧ d.statut_demande = "en_attente") ∧
    ((∀ d ∈ b.demande_acces, d.id ≠ id) →
      rejeter b id = (b, .erreur 404 .demandeNonTrouvee)) ∧
    (∀ d ∈ b.demande_acces, d.id = id → d.statut_demande ≠ "en_attente" →
      rejeter b id = (b, .erreur 400 .plusEnAttente)) ∧
    ((approuver b id).2.echec = none →
      approuver (approuver b id).1 id = ((approuver b id).1, .erreur 400 .plusEnAttente) ∧
      rejeter (approuver b id).1 id = ((approuver b id).1, .erreur 400 .plusEnAttente)) ∧
    ((rejeter b id).2.echec = none →
      approuver (rejeter b id).1 id = ((rejeter b id).1, .erreur 400 .plusEnAttente) ∧
      rejeter (rejeter b id).1 id = ((rejeter b id).1, .erreur 400 .plusEnAttente)) := by
  have ha := decider_issue "approuvee" hb id
  have hr := decider_issue "rejetee" hb id
  refine ⟨ha.1, ha.2.1, ha.2.2, hr.1, hr.2.1, hr.2.2, fun h => ⟨?_, ?_⟩, fun h => ⟨?_, ?_⟩⟩
  · exact decider_deux_fois "approuvee" "approuvee" (by decide) hb id h
  · exact decider_deux_fois "approuvee" "rejetee" (by decide) hb id h
  · exact decider_deux_fois "rejetee" "approuvee" (by decide) hb id h
  · exact decider_deux_fois "rejetee" "rejetee" (by decide) hb id h

/-- The outcomes of decisions at a store holding one pending request, id 1:
approving it succeeds, approving id 5 answers 404, and rejecting id 1 after the
approval answers 400. -/
theorem approuver_rejeter_issue_witness :
    (approuver (soumettre 100 7 base0 (corps 600 660)).1 1).2.echec = none ∧
    approuver (soumettre 100 7 base0 (corps 600 660)).1 5 =
      ((soumettre 100 7 base0 (corps 600 660)).1, .erreur 404 .demandeNonTrouvee) ∧
    rejeter (approuver (soumettre 100 7 base0 (corps 600 660)).1 1).1 1 =
      ((approuver (soumettre 100 7 base0 (corps 600 660)).1 1).1,
        .erreur 400 .plusEnAttente) :=
  have hb : (soumettre 100 7 base0 (corps 600 660)).1.WF := soumettre_WF (WF_of_vide rfl) _
  ⟨(approuver_rejeter_issue _ hb 1).1.2
      ⟨⟨1, 1, 1, "en_attente", 100, 600, 660, "cours", 7⟩, by decide, rfl, rfl⟩,
   (approuver_rejeter_issue _ hb 5).2.1 (by decide),
   ((approuver_rejeter_issue _ hb 1).2.2.2.2.2.2.1 (by decide)).2⟩

/-- The effect of a successful decision, row by row. -/
theorem decider_effet (st : String) {b : Base} (hb : b.WF) {d : Demande}
    (hd : d ∈ b.demande_acces) (hp : d.statut_demande = "en_attente") :
    (decider st b d.id).2 = .demande 200 (some { d with statut_demande := st }) ∧
    (decider st b d.id).1.users = b.users ∧
    (decider st b d.id).1.salles = b.salles ∧
    (decider st b d.id).1.nextId = b.nextId ∧
    (decider st b d.id).1.demande_acces.length = b.demande_acces.length ∧
    (∀ i : Nat, b.demande_acces[i]? = some d →
      (decider st b d.id).1.demande_acces[i]? = some { d with statut_demande := st }) ∧
    (∀ (i : Nat) (e : Demande), b.demande_acces[i]? = some e → e ≠ d →
      (decider st b d.id).1.demande_acces[i]? = some e) := by
  rw [decider_enAttente (selectDemande_of_mem hb hd) hp]
  refine ⟨rfl, rfl, rfl, rfl, by simp [majStatut], fun i hi => ?_, fun i e hi hne => ?_⟩
  · simp only [majStatut_getElem?, hi, Option.map_some', if_true]
  · have he : e ∈ b.demande_acces := List.getElem?_mem hi
    have hid : e.id ≠ d.id := fun h => hne (eq_of_id_eq hb hd he h)
    simp only [majStatut_getElem?, hi, Option.map_some', if_neg hid]

/-! ## Sequences of operations -/

theorem listerParUser_fst (b : Base) (u : Nat) : (listerParUser b u).1 = b := by
  unfold listerParUser
  dsimp only
  split_ifs <;> rfl

theorem lister_fst (b : Base) (st : Option String) : (lister b st).1 = b := by
  unfold lister
  split <;> rfl

theorem step_WF {b : Base} (hb : b.WF) (op : Op) : (step b op).1.WF := by
  cases op with
  | soumettre today now c => exact soumettre_WF hb c
  | approuver id => exact decider_WF hb id
  | rejeter id => exact decider_WF hb id
  | lister st => simp only [step, lister_fst]; exact hb
  | listerParUser u => simp only [step, listerParUser_fst]; exact hb

theorem run_WF {b : Base} (hb : b.WF) (ops : List Op) : (run b ops).WF := by
  induction ops generalizing b with
  | nil => exact hb
  | cons op ops ih => exact ih (step_WF hb op)

/-- Every store reached from an empty `demande_acces` table is well formed. -/
theorem run_WF_of_vide {b : Base} (h : b.demande_acces = []) (ops : List Op) :
    (run b ops).WF :=
  run_WF (WF_of_vide h) ops

/-- One operation keeps every stored row in place, with every column but the
status unchanged, and moves the status along `en_attente -> st` at most. -/
theorem decider_row (st : String) {b : Base} (hb : b.WF) (id i : Nat) {d : Demande}
    (hi : b.demande_acces[i]? = some d) :
    (decider st b id).1.demande_acces[i]? = some d ∨
    (d.statut_demande = "en_attente" ∧
      (decider st b id).1.demande_acces[i]? = some { d with statut_demande := st }) := by
  rcases decider_cases st b id with h1 | ⟨d0, hd0, hid, hp, heq⟩
  · left; rw [h1.1]; exact hi
  · rw [heq]
    by_cases hd : d.id = id
    · right
      have : d = d0 := eq_of_id_eq hb hd0 (List.getElem?_mem hi) (hd.trans hid.symm)
      refine ⟨this ▸ hp, ?_⟩
      simp only [majStatut_getElem?, hi, Option.map_some', if_pos hd]
    · left
      simp only [majStatut_getElem?, hi, Option.map_some', if_neg hd]

theorem soumettre_row (today now : Nat) (b : Base) (c : Corps) (i : Nat) {d : Demande}
    (hi : b.demande_acces[i]? = some d) :
    (soumettre today now b c).1.demande_acces[i]? = some d := by
  rcases soumettre_issue today now b c with h | ⟨u, s, dt, a0, a1, m, _, _, _, _, _, _, _, _,
    _, _, _, _, _, _, _, h⟩
  · rw [h.1]; exact hi
  · rw [h]
    have hlt : i < b.demande_acces.length := by
      rcases Nat.lt_or_ge i b.demande_acces.length with h1 | h1
      · exact h1
      · rw [List.getElem?_eq_none h1] at hi; cases hi
    simp only [inserer]
    rw [List.getElem?_append_left hlt]; exact hi

theorem step_row {b : Base} (hb : b.WF) (op : Op) (i : Nat) {d : Demande}
    (hi : b.demande_acces[i]? = some d) :
    (step b op).1.demande_acces[i]? = some d ∨
    (d.statut_demande = "en_attente" ∧
      ((step b op).1.demande_acces[i]? = some { d with statut_demande := "approuvee" } ∨
       (step b op).1.demande_acces[i]? = some { d with statut_demande := "rejetee" })) := by
  cases op with
  | soumettre today now c => left; exact soumettre_row today now b c i hi
  | approuver id =>
    rcases decider_row "approuvee" hb id i hi with h | h
    · left; exact h
    · right; exact ⟨h.1, Or.inl h.2⟩
  | rejeter id =>
    rcases decider_row "rejetee" hb id i hi with h | h
    · left; exact h
    · right; exact ⟨h.1, Or.inr h.2⟩
  | lister st => left; simp only [step, lister_fst]; exact hi
  | listerParUser u => left; simp only [step, listerParUser_fst]; exact hi

theorem run_row_decidee {b : Base} (hb : b.WF) (ops : List Op) (i : Nat) {d : Demande}
    (hi : b.demande_acces[i]? = some d) (hp : d.statut_demande ≠ "en_attente") :
    (run b ops).demande_acces[i]? = some d := by
  induction ops generalizing b with
  | nil => exact hi
  | cons op ops ih =>
    refine ih (step_WF hb op) ?_
    rcases step_row hb op i hi with h | h
    · exact h
    · exact absurd h.1 hp

theorem run_length {b : Base} (hb : b.WF) (ops : List Op) :
    b.demande_acces.length ≤ (run b ops).demande_acces.length := by
  induction ops generalizing b with
  | nil => exact Nat.le_refl _
  | cons op ops ih =>
    refine Nat.le_trans ?_ (ih (step_WF hb op))
    rcases Nat.lt_or_ge (step b op).1.demande_acces.length b.demande_acces.length with h | h
    · exfalso
      have hlt : (step b op).1.demande_acces.length < b.demande_acces.length := h
      obtain ⟨d, hd⟩ : ∃ d, b.demande_acces[(step b op).1.demande_acces.length]? = some d :=
        ⟨_, List.getElem?_eq_getElem hlt⟩
      rcases step_row hb op _ hd with h1 | ⟨_, h1 | h1⟩ <;>
        · rw [List.getElem?_eq_none (Nat.le_refl _)] at h1; cases h1
    · exact h

/-- C3: on a well-formed store every operation (`soumettre`, `approuver`,
`rejeter`, `lister`, `listerParUser`) keeps each stored request in its place
with all columns but the status unchanged, and its status either stays or goes
from `en_attente` to `approuvee` or from `en_attente` to `rejetee`; a request
that is `approuvee` or `rejetee` is left as it is by every sequence of
operations, and no sequence of operations makes the table shorter. -/
theorem statut_transitions (b : Base) (hb : b.WF) :
    (∀ (op : Op) (i : Nat) (d : Demande), b.demande_acces[i]? = some d →
      ∃ d2, (step b op).1.demande_acces[i]? = some d2 ∧
        d2 = { d with statut_demande := d2.statut_demande } ∧
        (d2.statut_demande = d.statut_demande ∨
          (d.statut_demande = "en_attente" ∧
            (d2.statut_demande = "approuvee" ∨ d2.statut_demande = "rejetee")))) ∧
    (∀ (ops : List Op) (i : Nat) (d : Demande), b.demande_acces[i]? = some d →
      (d.statut_demande = "approuvee" ∨ d.statut_demande = "rejetee") →
      (run b ops).demande_acces[i]? = some d) ∧
    (∀ ops : List Op, b.demande_acces.length ≤ (run b ops).demande_acces.length) := by
  refine ⟨fun op i d hi => ?_, fun ops i d hi hp => ?_, fun ops => run_length hb ops⟩
  · rcases step_row hb op i hi with h | ⟨hp, h | h⟩
    · exact ⟨d, h, rfl, Or.inl rfl⟩
    · exact ⟨_, h, rfl, Or.inr ⟨hp, Or.inl rfl⟩⟩
    · exact ⟨_, h, rfl, Or.inr ⟨hp, Or.inr rfl⟩⟩
  · refine run_row_decidee hb ops i hi ?_
    rcases hp with hp | hp <;> rw [hp] <;> decide

/-- The transitions at a store holding one pending request: approving it moves
its status to `approuvee`, and the approved request then survives a rejection,
an approval and a further submission unchanged. -/
theorem statut_transitions_witness :
    (∃ d2, (step (soumettre 100 7 base0 (corps 600 660)).1 (.approuver 1)).1.demande_acces[0]? =
        some d2 ∧
      d2 = { (⟨1, 1, 1, "en_attente", 100, 600, 660, "cours", 7⟩ : Demande) with
        statut_demande := d2.statut_demande } ∧
      (d2.statut_demande = "en_attente" ∨
        ("en_attente" = "en_attente" ∧
          (d2.statut_demande = "approuvee" ∨ d2.statut_demande = "rejetee")))) ∧
    (run (approuver (soumettre 100 7 base0 (corps 600 660)).1 1).1
      [.rejeter 1, .approuver 1, .soumettre 100 9 (corps 700 800)]).demande_acces[0]? =
      some ⟨1, 1, 1, "approuvee", 100, 600, 660, "cours", 7⟩ :=
  ⟨(statut_transitions _ (soumettre_WF (WF_of_vide rfl) _)).1 (.approuver 1) 0
      ⟨1, 1, 1, "en_attente", 100, 600, 660, "cours", 7⟩ (by decide),
   (statut_transitions _ (approuver_WF (soumettre_WF (WF_of_vide rfl) _) 1)).2.1
      [.rejeter 1, .approuver 1, .soumettre 100 9 (corps 700 800)] 0
      ⟨1, 1, 1, "approuvee", 100, 600, 660, "cours", 7⟩ (by decide) (Or.inl rfl)⟩

/-- C5: on a well-formed store, approving (resp. rejecting) a request that is
`en_attente` answers 200 with that request carrying the status `approuvee`
(resp. `rejetee`) and every other column as before, stores it in the same place,
leaves every other request as it was, and leaves the number of requests, the
users, the rooms and the id counter unchanged. -/
theorem approuver_rejeter_effet (b : Base) (hb : b.WF) (d : Demande)
    (hd : d ∈ b.demande_acces) (hp : d.statut_demande = "en_attente") :
    ((approuver b d.id).2 = .demande 200 (some { d with statut_demande := "approuvee" }) ∧
     (approuver b d.id).1.users = b.users ∧
     (approuver b d.id).1.salles = b.salles ∧
     (approuver b d.id).1.nextId = b.nextId ∧
     (approuver b d.id).1.demande_acces.length = b.demande_acces.length ∧
     (∀ i : Nat, b.demande_acces[i]? = some d →
       (approuver b d.id).1.demande_acces[i]? =
         some { d with statut_demande := "approuvee" }) ∧
     (∀ (i : Nat) (e : Demande), b.demande_acces[i]? = some e → e ≠ d →
       (approuver b d.id).1.demande_acces[i]? = some e)) ∧
    ((rejeter b d.id).2 = .demande 200 (some { d with statut_demande := "rejetee" }) ∧
     (rejeter b d.id).1.users = b.users ∧
     (rejeter b d.id).1.salles = b.salles ∧
     (rejeter b d.id).1.nextId = b.nextId ∧
     (rejeter b d.id).1.demande_acces.length = b.demande_acces.length ∧
     (∀ i : Nat, b.demande_acces[i]? = some d →
       (rejeter b d.id).1.demande_acces[i]? =
         some { d with statut_demande := "rejetee" }) ∧
     (∀ (i : Nat) (e : Demande), b.demande_acces[i]? = some e → e ≠ d →
       (rejeter b d.id).1.demande_acces[i]? = some e)) :=
  ⟨decider_effet "approuvee" hb hd hp, decider_effet "rejetee" hb hd hp⟩

/-- Approving the first of two pending requests: the answer is that request,
approved, and the second request is untouched. -/
theorem approuver_rejeter_effet_witness :
    (approuver (soumettre 100 8 (soumettre 100 7 base0 (corps 600 660)).1 (corps 700 800)).1
        1).2 = .demande 200 (some ⟨1, 1, 1, "approuvee", 100, 600, 660, "cours", 7⟩) ∧
    (approuver (soumettre 100 8 (soumettre 100 7 base0 (corps 600 660)).1 (corps 700 800)).1
        1).1.demande_acces[1]? = some ⟨2, 1, 1, "en_attente", 100, 700, 800, "cours", 8⟩ :=
  have hb : (soumettre 100 8 (soumettre 100 7 base0 (corps 600 660)).1 (corps 700 800)).1.WF :=
    soumettre_WF (soumettre_WF (WF_of_vide rfl) _) _
  have h := approuver_rejeter_effet _ hb ⟨1, 1, 1, "en_attente", 100, 600, 660, "cours", 7⟩
    (by decide) rfl
  ⟨h.1.1, h.1.2.2.2.2.2.2 1 ⟨2, 1, 1, "en_attente", 100, 700, 800, "cours", 8⟩
    (by decide) (by decide)⟩

/-- The failures a submission can answer with. -/
theorem soumettre_echec (today now : Nat) (b : Base) (c : Corps) (code : Nat) (e : Erreur)
    (h : (soumettre today now b c).2.echec = some (code, e)) :
    (code, e) ∈ [(400, Erreur.champsObligatoires), (400, Erreur.dateAnterieure),
      (400, Erreur.heureFinApresDebut), (404, Erreur.utilisateurNonTrouve),
      (404, Erreur.salleNonTrouvee), (400, Erreur.demandeExistante)] ∨
    ∃ o f, (code, e) = (400, Erreur.horsHoraires o f) := by
  rcases soumettre_cases c with hc | ⟨u, s, dt, a0, a1, m, hu, hs, hd, h0, h1, hm⟩
  · rw [hc] at h; simp [Reponse.echec] at h; simp [← h.1, ← h.2]
  · rw [soumettre_present hu hs hd h0 h1 hm] at h
    by_cases c1 : dt < today
    · simp [c1, Reponse.echec] at h; simp [← h.1, ← h.2]
    by_cases c2 : a1 ≤ a0
    · simp [c1, c2, Reponse.echec] at h; simp [← h.1, ← h.2]
    by_cases c3 : (selectUser b u).length = 0
    · simp [c1, c2, c3, Reponse.echec] at h; simp [← h.1, ← h.2]
    rw [if_neg c1, if_neg c2, if_neg c3] at h
    cases hsal : selectSalle b s with
    | nil => rw [hsal] at h; simp [Reponse.echec] at h; simp [← h.1, ← h.2]
    | cons salle rest =>
      rw [hsal] at h
      by_cases c4 : a0 < salle.heure_ouverture ∨ a1 > salle.heure_fermeture
      · simp [c4, Reponse.echec] at h; simp [← h.1, ← h.2]
      by_cases c5 : (b.demande_acces.filter (conflit u s dt a0 a1)).length > 0
      · simp [c4, c5, Reponse.echec] at h; simp [← h.1, ← h.2]
      · simp [c4, c5, Reponse.echec] at h

/-- C6: on a well-formed store, a successful `soumettre` appends exactly one
row to `demande_acces`, leaves the rows already stored, the users and the rooms
as they were, and the new row is `en_attente`, carries the submitted user, room,
date, times and reason and the store's timestamp, and is the row answered with
code 201; a failing `soumettre` (missing field, past date, time order, unknown
user, unknown room, outside room hours, pending conflict: there is no other
failure) leaves the store unchanged. -/
theorem soumettre_effet (today now : Nat) (b : Base) (c : Corps) (hb : b.WF) :
    ((soumettre today now b c).2.echec = none →
      ∃ d, (soumettre today now b c).1.demande_acces = b.demande_acces ++ [d] ∧
        (soumettre today now b c).1.users = b.users ∧
        (soumettre today now b c).1.salles = b.salles ∧
        d.statut_demande = "en_attente" ∧
        c.user_id = some d.user_id ∧ c.salle_id = some d.salle_id ∧
        c.date = some d.date ∧ c.heure_debut = some d.heure_debut ∧
        c.heure_fin = some d.heure_fin ∧ c.motif = some d.motif ∧
        d.created_at = now ∧
        (soumettre today now b c).2 = .demande 201 (some d)) ∧
    ((soumettre today now b c).2.echec ≠ none → (soumettre today now b c).1 = b) ∧
    (∀ (code : Nat) (e : Erreur), (soumettre today now b c).2.echec = some (code, e) →
      (code, e) ∈ [(400, Erreur.champsObligatoires), (400, Erreur.dateAnterieure),
        (400, Erreur.heureFinApresDebut), (404, Erreur.utilisateurNonTrouve),
        (404, Erreur.salleNonTrouvee), (400, Erreur.demandeExistante)] ∨
      ∃ o f, (code, e) = (400, Erreur.horsHoraires o f)) := by
  refine ⟨fun h => ?_, fun h => ?_, soumettre_echec today now b c⟩
  · rcases soumettre_issue today now b c with h1 | ⟨u, s, dt, a0, a1, m, _, _, hu, hs, hd, h0,
      h1, hm, _, _, _, _, _, _, _, heq⟩
    · exact absurd h h1.2
    · rw [heq, selectDemande_inserer hb]
      exact ⟨⟨b.nextId, u, s, "en_attente", dt, a0, a1, m, now⟩, rfl, rfl, rfl, rfl,
        (idPresent_eq_some.1 hu).1, (idPresent_eq_some.1 hs).1, hd, h0, h1,
        (textePresent_eq_some.1 hm).1, rfl, rfl⟩
  · rcases soumettre_issue today now b c with h1 | ⟨u, s, dt, a0, a1, m, _, _, _, _, _, _,
      _, _, _, _, _, _, _, _, _, heq⟩
    · exact h1.1
    · rw [heq] at h; exact absurd rfl h

/-- A second request submitted after a first one: the store grows by the new
row, which is the row answered; a submission for a past day changes nothing. -/
theorem soumettre_effet_witness :
    (∃ d, (soumettre 100 8 (soumettre 100 7 base0 (corps 600 660)).1
          (corps 700 800)).1.demande_acces =
        (soumettre 100 7 base0 (corps 600 660)).1.demande_acces ++ [d] ∧
      (soumettre 100 8 (soumettre 100 7 base0 (corps 600 660)).1 (corps 700 800)).1.users =
        (soumettre 100 7 base0 (corps 600 660)).1.users ∧
      (soumettre 100 8 (soumettre 100 7 base0 (corps 600 660)).1 (corps 700 800)).1.salles =
        (soumettre 100 7 base0 (corps 600 660)).1.salles ∧
      d.statut_demande = "en_attente" ∧
      (corps 700 800).user_id = some d.user_id ∧ (corps 700 800).salle_id = some d.salle_id ∧
      (corps 700 800).date = some d.date ∧ (corps 700 800).heure_debut = some d.heure_debut ∧
      (corps 700 800).heure_fin = some d.heure_fin ∧ (corps 700 800).motif = some d.motif ∧
      d.created_at = 8 ∧
      (soumettre 100 8 (soumettre 100 7 base0 (corps 600 660)).1 (corps 700 800)).2 =
        .demande 201 (some d)) ∧
    (soumettre 101 8 (soumettre 100 7 base0 (corps 600 660)).1 (corps 700 800)).1 =
      (soumettre 100 7 base0 (corps 600 660)).1 :=
  ⟨(soumettre_effet 100 8 _ (corps 700 800) (soumettre_WF (WF_of_vide rfl) _)).1 (by decide),
   (soumettre_effet 101 8 _ (corps 700 800) (soumettre_WF (WF_of_vide rfl) _)).2.1
     (by decide)⟩

/-- C8, as stated, fails: an empty `statut` parameter is given but falsy, and
the handler answers with the `en_attente` rows, none of which has status `""`. -/
theorem lister_vide_contre :
    (lister { base0 with
        demande_acces := [⟨1, 1, 1, "en_attente", 100, 600, 660, "cours", 7⟩] } (some "")).2 =
      .demandes 200 [⟨1, 1, 1, "en_attente", 100, 600, 660, "cours", 7⟩] ∧
    ¬ ∀ (b : Base) (s : String),
      (lister b (some s)).2 =
        .demandes 200 (b.demande_acces.filter (fun d => d.statut_demande == s)) := by
  refine ⟨by decide, fun h => ?_⟩
  have h1 := h { base0 with
    demande_acces := [⟨1, 1, 1, "en_attente", 100, 600, 660, "cours", 7⟩] } ""
  revert h1
  decide

/-- C8, amended: a non-empty `statut` parameter selects exactly the rows with
that status (none when no row has it), an absent or empty parameter selects
exactly the `en_attente` rows; the store is never changed. -/
theorem lister_spec (b : Base) :
    (∀ s : String, s ≠ "" →
      lister b (some s) =
        (b, .demandes 200 (b.demande_acces.filter (fun d => d.statut_demande == s))) ∧
      ((∀ d ∈ b.demande_acces, d.statut_demande ≠ s) →
        lister b (some s) = (b, .demandes 200 []))) ∧
    lister b none =
      (b, .demandes 200 (b.demande_acces.filter (fun d => d.statut_demande == "en_attente"))) ∧
    lister b (some "") =
      (b, .demandes 200 (b.demande_acces.filter (fun d => d.statut_demande == "en_attente"))) ∧
    (∀ (s : String) (d : Demande),
      d ∈ b.demande_acces.filter (fun d => d.statut_demande == s) ↔
        d ∈ b.demande_acces ∧ d.statut_demande = s) := by
  refine ⟨fun s hs => ?_, rfl, rfl, fun s d => by simp [List.mem_filter]⟩
  have h1 : lister b (some s) =
      (b, .demandes 200 (b.demande_acces.filter (fun d => d.statut_demande == s))) := by
    simp [lister, textePresent, hs]
  refine ⟨h1, fun hn => ?_⟩
  rw [h1]
  have : b.demande_acces.filter (fun d => d.statut_demande == s) = [] := by
    rw [List.filter_eq_nil_iff]
    intro d hd
    simpa using hn d hd
  rw [this]

/-- The listing at a store holding one approved and one pending request. -/
theorem lister_spec_witness :
    lister (approuver (soumettre 100 8 (soumettre 100 7 base0 (corps 600 660)).1
        (corps 700 800)).1 1).1 (some "approuvee") =
      ((approuver (soumettre 100 8 (soumettre 100 7 base0 (corps 600 660)).1
        (corps 700 800)).1 1).1,
       .demandes 200 [⟨1, 1, 1, "approuvee", 100, 600, 660, "cours", 7⟩]) ∧
    lister (approuver (soumettre 100 8 (soumettre 100 7 base0 (corps 600 660)).1
        (corps 700 800)).1 1).1 (some "inconnu") =
      ((approuver (soumettre 100 8 (soumettre 100 7 base0 (corps 600 660)).1
        (corps 700 800)).1 1).1, .demandes 200 []) :=
  ⟨((lister_spec _).1 "approuvee" (by decide)).1.trans (by decide),
   ((lister_spec _).1 "inconnu" (by decide)).2 (by decide)⟩

end Securite2ie
